import Mathlib

/-!
Verification of the SD-card scanning core of the LT7689 firmware
(src/src/main.rs): the `read_sd_card` bus-ownership protocol, the
`sd_card_task` scanner loop, the shared `SD_FILES` / `SD_STATUS` state,
and the lock/IO discipline of `handle_client`.

Machine integers (`u32`) are modelled as `Nat` (no arithmetic in the
scanned code can overflow them: sizes are carried through unchanged).
The external `embedded-sdmmc` driver is abstracted by a `DriverBehavior`
record saying which of the three fallible stages succeed and which
directory entries the enumeration yields.
-/

namespace LT7689

/-- The `Spi<'static, SPI0, Blocking>` bus handle. Only its identity
matters for the ownership claims, so it is modelled as a tagged value. -/
structure Spi where
  id : Nat
deriving DecidableEq, Repr

/-- The chip-select `Output<'static>` line (GPIO 5). -/
structure Cs where
  id : Nat
deriving DecidableEq, Repr

/-- `embedded_hal_bus::spi::ExclusiveDevice::new(spi, cs, Delay)`:
wraps the bus and the select line (the `Delay` is a zero-sized value and
is dropped by the code, so it is not modelled). -/
structure ExclusiveDevice where
  bus : Spi
  cs : Cs
deriving DecidableEq, Repr

/-- `ExclusiveDevice::release()` as used at main.rs:146/160/172/199:
`let (spi_inner, cs_inner, _delay) = spi.release();` — gives back the
wrapped bus and select line. -/
def ExclusiveDevice.release (d : ExclusiveDevice) : Spi × Cs :=
  (d.bus, d.cs)

/-- `embedded_sdmmc::SdCard::new(spi_device, Delay)` (main.rs:137):
the card driver takes ownership of the exclusive device. -/
structure SdCard where
  device : ExclusiveDevice
deriving DecidableEq, Repr

/-- `SdCard::free()` (main.rs:145/159/171/198): returns the wrapped
exclusive device. -/
def SdCard.free (c : SdCard) : ExclusiveDevice :=
  c.device

/-- `embedded_sdmmc::VolumeManager::new(sd_card, DummyTimesource)`
(main.rs:152): the volume manager takes ownership of the card driver. -/
structure VolumeManager where
  sd : SdCard
deriving DecidableEq, Repr

/-- `VolumeManager::free()` (main.rs:158/170/197): returns the wrapped
card driver. -/
def VolumeManager.free (v : VolumeManager) : SdCard :=
  v.sd

/-- One entry yielded by `volume_mgr.iterate_dir` (main.rs:178): the
fields of `embedded_sdmmc::DirEntry` the code reads — `entry.name`
(as the string its `Display` impl renders), `entry.size : u32`, and
`entry.attributes.is_directory()`. -/
structure DirEntry where
  name : String
  size : Nat
  isDirectory : Bool
deriving DecidableEq, Repr

/-- The `FileInfo` struct of main.rs:59-64: a `heapless::String<64>`
name (modelled as a `String` whose length the write discipline keeps
at most 64), a `u32` size and an `is_dir` flag. -/
structure FileInfo where
  name : String
  size : Nat
  is_dir : Bool
deriving DecidableEq, Repr

/-- Behaviour of the external SD/FAT driver during one scan attempt:
whether `sd_card.num_bytes()` (the presence probe), `open_volume` and
`open_root_dir` succeed, the entries `iterate_dir` yields to the closure
before it stops, and whether `iterate_dir` itself ends in an error. -/
structure DriverBehavior where
  numBytesOk : Bool
  openVolumeOk : Bool
  openRootDirOk : Bool
  dirEntries : List DirEntry
  iterateDirErr : Bool
deriving DecidableEq, Repr

/-- `heapless::Vec<FileInfo, 32>::push` with its error discarded
(`let _ = file_list.push(file_info)`, main.rs:99/190): appends when the
vector is below its 32-entry capacity and silently drops the element
otherwise. -/
def vecPush (v : List FileInfo) (x : FileInfo) : List FileInfo :=
  if v.length < 32 then v ++ [x] else v

/-- `heapless::String<64>`'s `core::fmt::Write::write_str`, with the
`fmt::Error` discarded by the enclosing `let _ = write_fmt(..)`
(main.rs:182): `push_str` is all-or-nothing — the chunk is appended only
when it fits within the 64-byte capacity, and the buffer is left
unchanged when it does not. -/
def writeStr (buf : String) (s : String) : String :=
  if buf.length + s.length ≤ 64 then buf ++ s else buf

/-- `let mut name = heapless::String::new();
let _ = core::fmt::Write::write_fmt(&mut name, format_args!("{}", entry.name));`
(main.rs:179-182): the rendered entry name arrives as one `write_str`
chunk into the empty 64-byte buffer. -/
def formatEntryName (n : String) : String :=
  writeStr "" n

/-- The closure body of `iterate_dir` (main.rs:178-188): builds a
`FileInfo` from a directory entry. -/
def entryToFileInfo (entry : DirEntry) : FileInfo :=
  { name := formatEntryName entry.name
    size := entry.size
    is_dir := entry.isDirectory }

/-- Diagnostic for a probe failure (main.rs:147). -/
def msgNoCard : String := "No SD card detected"

/-- Diagnostic for a volume-mount failure (main.rs:161). -/
def msgNoVolume : String := "Failed to open volume (format as FAT32)"

/-- Diagnostic for a root-directory-open failure (main.rs:173). -/
def msgNoRootDir : String := "Failed to open root directory"

/-- `read_sd_card` (main.rs:128-202). Takes ownership of the
`ExclusiveDevice`; wraps it in `SdCard::new` and `VolumeManager::new`
stage by stage, and on every exit path unwinds `VolumeManager::free`,
`SdCard::free`, `ExclusiveDevice::release` to hand the
`(spi_inner, cs_inner)` pair back, in the `Ok` payload on success and in
the `Err` payload on each stage failure. The directory iteration pushes
every yielded entry through `vecPush` (capacity drops are silent) and its
own result is discarded (`let _ = volume_mgr.iterate_dir(..)`);
`close_dir` / `close_volume` are best-effort (`.ok()`) and have no
modelled effect. -/
def readSdCard (d : DriverBehavior) (spi_device : ExclusiveDevice) :
    Except (Spi × Cs × String) (Spi × Cs × List FileInfo) :=
  let sd_card : SdCard := { device := spi_device }
  if d.numBytesOk = false then
    let spi := SdCard.free sd_card
    let (spi_inner, cs_inner) := ExclusiveDevice.release spi
    Except.error (spi_inner, cs_inner, msgNoCard)
  else
    let volume_mgr : VolumeManager := { sd := sd_card }
    if d.openVolumeOk = false then
      let sd := VolumeManager.free volume_mgr
      let (spi_inner, cs_inner) := ExclusiveDevice.release (SdCard.free sd)
      Except.error (spi_inner, cs_inner, msgNoVolume)
    else if d.openRootDirOk = false then
      let sd := VolumeManager.free volume_mgr
      let (spi_inner, cs_inner) := ExclusiveDevice.release (SdCard.free sd)
      Except.error (spi_inner, cs_inner, msgNoRootDir)
    else
      let file_list :=
        d.dirEntries.foldl (fun acc entry => vecPush acc (entryToFileInfo entry)) []
      let sd := VolumeManager.free volume_mgr
      let (spi_inner, cs_inner) := ExclusiveDevice.release (SdCard.free sd)
      Except.ok (spi_inner, cs_inner, file_list)

/-- The contents of the two static mutexes `SD_FILES` (a
`heapless::Vec<FileInfo, 32>`) and `SD_STATUS` (a `&str`),
main.rs:49-57. -/
structure SharedState where
  sdFiles : List FileInfo
  sdStatus : String
deriving DecidableEq, Repr

/-- The initial mutex contents (main.rs:52/57):
`heapless::Vec::new()` and `"Initializing..."`. -/
def initialShared : SharedState :=
  { sdFiles := [], sdStatus := "Initializing..." }

/-- The `SD_FILES` critical section of the success branch
(main.rs:95-101): `files.clear();` then `let _ = files.push(file)` for
each element of the returned list, under one lock acquisition. -/
def replaceAllCS (file_list : List FileInfo) (s : SharedState) : SharedState :=
  { s with sdFiles := file_list.foldl vecPush [] }

/-- The `SD_STATUS` critical section (main.rs:103-106 on success,
main.rs:113-116 on failure): `*status = value;` under one lock
acquisition. -/
def setStatusCS (value : String) (s : SharedState) : SharedState :=
  { s with sdStatus := value }

/-- `snapshot`: what `handle_client` copies out of the shared state
(main.rs:288-291) — the status string and the file list. -/
def snapshot (s : SharedState) : String × List FileInfo :=
  (s.sdStatus, s.sdFiles)

/-- One iteration of the `sd_card_task` loop body (main.rs:86-125,
without the sleep): rebuild the `ExclusiveDevice`, call `read_sd_card`,
publish the outcome to the shared state, and rebind `spi = new_spi;
cs = new_cs;` from whichever variant came back. Returns the pair the
next iteration will use together with the updated shared state. -/
def scanCycle (d : DriverBehavior) (spi : Spi) (cs : Cs) (s : SharedState) :
    Spi × Cs × SharedState :=
  let spi_device : ExclusiveDevice := { bus := spi, cs := cs }
  match readSdCard d spi_device with
  | Except.ok (new_spi, new_cs, file_list) =>
      (new_spi, new_cs, setStatusCS "Ready" (replaceAllCS file_list s))
  | Except.error (new_spi, new_cs, e) =>
      (new_spi, new_cs, setStatusCS e s)

/-- Extracts the returned bus/select pair from either variant of the
`read_sd_card` result type. -/
def resultPair : Except (Spi × Cs × String) (Spi × Cs × List FileInfo) → Spi × Cs
  | Except.ok (a, b, _) => (a, b)
  | Except.error (a, b, _) => (a, b)

/-- A fixed concrete device used to instantiate theorems. -/
def dev0 : ExclusiveDevice :=
  { bus := { id := 0 }, cs := { id := 0 } }

end LT7689

namespace LT7689

/-- Claim C1: `read_sd_card` returns the SPI bus handle and chip-select
pair on every path — in `Ok` on success and in `Err` on each of the three
stage failures — and `sd_card_task` rebinds exactly that returned pair
for the next cycle, so the pair is never dropped by a failed scan. -/
theorem readSdCard_returns_pair_on_every_path
    (d : DriverBehavior) (dev : ExclusiveDevice)
    (spi : Spi) (cs : Cs) (s : SharedState) :
    resultPair (readSdCard d dev) = (dev.bus, dev.cs)
    ∧ (scanCycle d spi cs s).1 = spi
    ∧ (scanCycle d spi cs s).2.1 = cs := by
  obtain ⟨p, m, r, es, ie⟩ := d
  cases p <;> cases m <;> cases r <;>
    simp [scanCycle, readSdCard, resultPair, ExclusiveDevice.release,
      SdCard.free, VolumeManager.free]

end LT7689

namespace LT7689

/-- Folding `vecPush` from any accumulator keeps the first elements and
drops everything beyond the 32-entry capacity. -/
theorem foldl_vecPush (l : List FileInfo) :
    ∀ acc : List FileInfo,
      List.foldl vecPush acc l = acc ++ l.take (32 - acc.length) := by
  induction l with
  | nil => intro acc; simp
  | cons x xs ih =>
    intro acc
    by_cases h : acc.length < 32
    · have hx : vecPush acc x = acc ++ [x] := by simp [vecPush, h]
      have h32 : 32 - acc.length = (32 - (acc ++ [x]).length) + 1 := by
        simp
        omega
      rw [List.foldl_cons, hx, ih, h32, List.take_succ_cons, List.append_assoc]
      simp
    · have hx : vecPush acc x = acc := by simp [vecPush, h]
      have h0 : 32 - acc.length = 0 := by omega
      rw [List.foldl_cons, hx, ih, h0]
      simp

/-- When all three fallible stages succeed, `read_sd_card` returns the
original pair and the enumerated entries truncated to capacity. -/
theorem readSdCard_ok_file_list (d : DriverBehavior) (dev : ExclusiveDevice)
    (h1 : d.numBytesOk = true) (h2 : d.openVolumeOk = true)
    (h3 : d.openRootDirOk = true) :
    readSdCard d dev =
      Except.ok (dev.bus, dev.cs, (d.dirEntries.map entryToFileInfo).take 32) := by
  simp [readSdCard, h1, h2, h3, ExclusiveDevice.release, SdCard.free,
    VolumeManager.free, ← List.foldl_map, foldl_vecPush]

/-- Claim C3: on every successful scan the published Catalog equals the
entries yielded by directory enumeration, in enumeration order,
truncated to at most 32, and the published Status is "Ready". -/
theorem scanCycle_success_publishes (d : DriverBehavior)
    (spi : Spi) (cs : Cs) (s : SharedState)
    (h1 : d.numBytesOk = true) (h2 : d.openVolumeOk = true)
    (h3 : d.openRootDirOk = true) :
    ((scanCycle d spi cs s).2.2).sdFiles = (d.dirEntries.map entryToFileInfo).take 32
    ∧ ((scanCycle d spi cs s).2.2).sdStatus = "Ready" := by
  simp [scanCycle, readSdCard_ok_file_list d _ h1 h2 h3, setStatusCS,
    replaceAllCS, foldl_vecPush, List.take_take]

/-- Claim C4: a failed scan attempt leaves the Catalog exactly as it
was — the failure branch writes only the Status. -/
theorem scanCycle_failure_preserves_catalog (d : DriverBehavior)
    (spi : Spi) (cs : Cs) (s : SharedState)
    (h : d.numBytesOk = false ∨ d.openVolumeOk = false ∨ d.openRootDirOk = false) :
    ((scanCycle d spi cs s).2.2).sdFiles = s.sdFiles := by
  obtain ⟨p, m, r, es, ie⟩ := d
  cases p <;> cases m <;> cases r <;>
    simp_all [scanCycle, readSdCard, setStatusCS, ExclusiveDevice.release,
      SdCard.free, VolumeManager.free]

/-- Claim C5: each fallible stage fails with exactly its diagnostic
string, and those three strings are the only errors `read_sd_card` can
return. -/
theorem readSdCard_error_strings (d : DriverBehavior) (dev : ExclusiveDevice)
    (a : Spi) (b : Cs) (e : String)
    (h : readSdCard d dev = Except.error (a, b, e)) :
    (e = msgNoCard ∨ e = msgNoVolume ∨ e = msgNoRootDir)
    ∧ (d.numBytesOk = false → e = msgNoCard)
    ∧ (d.numBytesOk = true → d.openVolumeOk = false → e = msgNoVolume)
    ∧ (d.numBytesOk = true → d.openVolumeOk = true →
        d.openRootDirOk = false → e = msgNoRootDir) := by
  obtain ⟨p, m, r, es, ie⟩ := d
  cases p <;> cases m <;> cases r <;>
    simp_all [readSdCard, ExclusiveDevice.release, SdCard.free, VolumeManager.free]

/-- Claim C7: once probe, mount and root-dir-open succeed, the scan is a
success regardless of how directory iteration ends — its error result is
discarded, excess entries are dropped individually by the capacity-32
push, the entries collected so far are returned, and the task publishes
"Ready", never an error, for such a scan. -/
theorem readSdCard_enumeration_never_fails (d : DriverBehavior)
    (dev : ExclusiveDevice) (spi : Spi) (cs : Cs) (s : SharedState)
    (h1 : d.numBytesOk = true) (h2 : d.openVolumeOk = true)
    (h3 : d.openRootDirOk = true) :
    (readSdCard d dev).isOk = true
    ∧ readSdCard { d with iterateDirErr := true } dev
        = readSdCard { d with iterateDirErr := false } dev
    ∧ readSdCard d dev
        = Except.ok (dev.bus, dev.cs, (d.dirEntries.map entryToFileInfo).take 32)
    ∧ ((scanCycle d spi cs s).2.2).sdStatus = "Ready" := by
  have hT := readSdCard_ok_file_list { d with iterateDirErr := true } dev h1 h2 h3
  have hF := readSdCard_ok_file_list { d with iterateDirErr := false } dev h1 h2 h3
  have hD := readSdCard_ok_file_list d dev h1 h2 h3
  have hS := readSdCard_ok_file_list d { bus := spi, cs := cs } h1 h2 h3
  refine ⟨by rw [hD]; rfl, by rw [hT, hF], hD, ?_⟩
  simp [scanCycle, hS, setStatusCS, replaceAllCS]

end LT7689

namespace LT7689

/-- A concrete bus handle for instantiating theorems. -/
def spi0 : Spi := { id := 0 }

/-- A concrete select line for instantiating theorems. -/
def cs0 : Cs := { id := 0 }

/-- A concrete plain-file directory entry. -/
def entA : DirEntry := { name := "HELLO.TXT", size := 3, isDirectory := false }

/-- A concrete subdirectory entry. -/
def entB : DirEntry := { name := "LOGS", size := 0, isDirectory := true }

/-- A driver behaviour in which every stage succeeds. -/
def dOk : DriverBehavior :=
  { numBytesOk := true, openVolumeOk := true, openRootDirOk := true
    dirEntries := [entA, entB], iterateDirErr := false }

/-- A driver behaviour whose presence probe fails. -/
def dProbeFail : DriverBehavior :=
  { numBytesOk := false, openVolumeOk := true, openRootDirOk := true
    dirEntries := [], iterateDirErr := false }

/-- A shared state left over from an earlier successful scan. -/
def sPrev : SharedState :=
  { sdFiles := [{ name := "OLD.TXT", size := 1, is_dir := false }]
    sdStatus := "Ready" }

/-- Witness for C3 at a concrete successful scan. -/
theorem scanCycle_success_publishes_witness :
    ((scanCycle dOk spi0 cs0 initialShared).2.2).sdFiles
        = (dOk.dirEntries.map entryToFileInfo).take 32
    ∧ ((scanCycle dOk spi0 cs0 initialShared).2.2).sdStatus = "Ready" :=
  scanCycle_success_publishes dOk spi0 cs0 initialShared rfl rfl rfl

/-- Witness for C4 at a concrete failed scan over a non-empty Catalog. -/
theorem scanCycle_failure_preserves_catalog_witness :
    ((scanCycle dProbeFail spi0 cs0 sPrev).2.2).sdFiles = sPrev.sdFiles :=
  scanCycle_failure_preserves_catalog dProbeFail spi0 cs0 sPrev (Or.inl rfl)

/-- Witness for C5 at a concrete probe failure. -/
theorem readSdCard_error_strings_witness :
    (msgNoCard = msgNoCard ∨ msgNoCard = msgNoVolume ∨ msgNoCard = msgNoRootDir)
    ∧ (dProbeFail.numBytesOk = false → msgNoCard = msgNoCard)
    ∧ (dProbeFail.numBytesOk = true → dProbeFail.openVolumeOk = false →
        msgNoCard = msgNoVolume)
    ∧ (dProbeFail.numBytesOk = true → dProbeFail.openVolumeOk = true →
        dProbeFail.openRootDirOk = false → msgNoCard = msgNoRootDir) :=
  readSdCard_error_strings dProbeFail dev0 dev0.bus dev0.cs msgNoCard rfl

/-- Witness for C7 at a concrete all-stages-succeed scan. -/
theorem readSdCard_enumeration_never_fails_witness :
    (readSdCard dOk dev0).isOk = true
    ∧ readSdCard { dOk with iterateDirErr := true } dev0
        = readSdCard { dOk with iterateDirErr := false } dev0
    ∧ readSdCard dOk dev0
        = Except.ok (dev0.bus, dev0.cs, (dOk.dirEntries.map entryToFileInfo).take 32)
    ∧ ((scanCycle dOk spi0 cs0 initialShared).2.2).sdStatus = "Ready" :=
  readSdCard_enumeration_never_fails dOk dev0 spi0 cs0 initialShared rfl rfl rfl

/-- `("" : String) ++ s = s`, needed to evaluate a fitting `writeStr`. -/
theorem string_nil_append (s : String) : "" ++ s = s := by
  cases s
  rfl

/-- A driver behaviour where all three stages succeed and the
enumeration yields one given entry. -/
def allStagesOkWith (e : DirEntry) : DriverBehavior :=
  { numBytesOk := true, openVolumeOk := true, openRootDirOk := true
    dirEntries := [e], iterateDirErr := false }

/-- Claim C8 (amended): an entry whose rendered name is exactly 64
characters is stored verbatim; an entry whose rendered name is longer is
still included in the Catalog — never skipped — but the all-or-nothing
64-byte buffer write discards the oversized name entirely, so the stored
name is empty rather than a truncated prefix. -/
theorem name_boundary_policy (dev : ExclusiveDevice) (e : DirEntry) :
    (e.name.length = 64 →
      readSdCard (allStagesOkWith e) dev
        = Except.ok (dev.bus, dev.cs,
            [{ name := e.name, size := e.size, is_dir := e.isDirectory }]))
    ∧ (64 < e.name.length →
      readSdCard (allStagesOkWith e) dev
        = Except.ok (dev.bus, dev.cs,
            [{ name := "", size := e.size, is_dir := e.isDirectory }])) := by
  constructor
  · intro h
    have hw : formatEntryName e.name = e.name := by
      simp [formatEntryName, writeStr, h, string_nil_append]
    simp [allStagesOkWith, readSdCard, entryToFileInfo, hw, vecPush,
      ExclusiveDevice.release, SdCard.free, VolumeManager.free]
  · intro h
    have hc : ¬ (e.name.length ≤ 64) := by omega
    simp [allStagesOkWith, readSdCard, entryToFileInfo, formatEntryName, writeStr,
      hc, vecPush, ExclusiveDevice.release, SdCard.free, VolumeManager.free]

/-- A 64-character name, at the buffer boundary. -/
def name64 : String := String.mk (List.replicate 64 'B')

/-- A 65-character name, one past the buffer boundary. -/
def name65 : String := String.mk (List.replicate 65 'A')

/-- The concrete driver behaviour used to refute C8 as stated: one
enumerated entry whose rendered name has 65 characters. -/
def dC8 : DriverBehavior :=
  { numBytesOk := true, openVolumeOk := true, openRootDirOk := true
    dirEntries := [{ name := name65, size := 10, isDirectory := false }]
    iterateDirErr := false }

/-- Counterexample to C8 as stated: the 65-character entry is included
in the Catalog, but its stored name is empty — even though the
64-character prefix would have fit in the buffer (`writeStr` accepts a
64-character chunk) — so the name is not "truncated to what fits". -/
theorem name_over64_not_prefix_truncated :
    readSdCard dC8 dev0
      = Except.ok (dev0.bus, dev0.cs, [{ name := "", size := 10, is_dir := false }])
    ∧ writeStr "" (String.mk (List.replicate 64 'A')) = String.mk (List.replicate 64 'A')
    ∧ ("" : String) ≠ String.mk (List.replicate 64 'A') := by
  refine ⟨rfl, rfl, ?_⟩
  decide

/-- Witness for the amended C8 at a 64-character and a 65-character
name. -/
theorem name_boundary_policy_witness :
    readSdCard (allStagesOkWith { name := name64, size := 7, isDirectory := false }) dev0
      = Except.ok (dev0.bus, dev0.cs, [{ name := name64, size := 7, is_dir := false }])
    ∧ readSdCard (allStagesOkWith { name := name65, size := 9, isDirectory := true }) dev0
      = Except.ok (dev0.bus, dev0.cs, [{ name := "", size := 9, is_dir := true }]) :=
  ⟨(name_boundary_policy dev0 { name := name64, size := 7, isDirectory := false }).1
      (by decide),
   (name_boundary_policy dev0 { name := name65, size := 9, isDirectory := true }).2
      (by decide)⟩

end LT7689

namespace LT7689

/-- The mutual-exclusion guards declared in the core (main.rs:49-57):
`SD_FILES` and `SD_STATUS` are two separate `embassy_sync::mutex::Mutex`
statics, one per value. -/
def coreGuards : List String := ["SD_FILES", "SD_STATUS"]

/-- A freshly enumerated file used in the interleaving scenario. -/
def fNew : FileInfo := { name := "A.TXT", size := 5, is_dir := false }

/-- Pre-scan shared state: an earlier probe failure left an empty
Catalog under the "No SD card detected" status. -/
def preScan : SharedState := { sdFiles := [], sdStatus := msgNoCard }

/-- The state between the success branch's two critical sections
(after main.rs:101 released `SD_FILES`, before main.rs:104 acquires
`SD_STATUS`): the new Catalog is published but the old Status still
stands, and both locks are free, so `handle_client` can take a snapshot
here. -/
def midScan : SharedState := replaceAllCS [fNew] preScan

/-- Post-scan shared state, after the `SD_STATUS` critical section. -/
def postScan : SharedState := setStatusCS "Ready" midScan

/-- Counterexample to C2 as stated: the snapshot taken between the two
critical sections of a successful publication mixes the new Catalog with
the previous scan's error Status — it equals neither the pre-scan nor
the post-scan pair — and the Catalog+Status pair is protected by two
mutexes, not exactly one. -/
theorem snapshot_mixes_scan_outcomes :
    snapshot midScan ≠ snapshot preScan
    ∧ snapshot midScan ≠ snapshot postScan
    ∧ coreGuards.length ≠ 1 := by
  refine ⟨?_, ?_, ?_⟩ <;> decide

/-- Claim C2 (amended): Catalog and Status are guarded by two separate
mutexes and the success path updates them in two separate critical
sections, so a reader interleaved between the sections observes the
post-scan Catalog paired with the pre-scan Status; each component
individually is torn-free — the sole intermediate state carries exactly
the post-scan Catalog and exactly the pre-scan Status. -/
theorem snapshot_components_untorn (s0 : SharedState) (file_list : List FileInfo) :
    (replaceAllCS file_list s0).sdStatus = s0.sdStatus
    ∧ (replaceAllCS file_list s0).sdFiles
        = (setStatusCS "Ready" (replaceAllCS file_list s0)).sdFiles
    ∧ coreGuards.length = 2 :=
  ⟨rfl, rfl, rfl⟩

/-- Events of the cooperative tasks, at the granularity the lock/IO
claims need: lock acquisitions/releases of the two mutexes, in-memory
writes of the shared values, in-memory copies out of them, SPI bus
transfers, and network socket transfers. -/
inductive Ev where
  | lockStatus
  | unlockStatus
  | lockFiles
  | unlockFiles
  | memWrite
  | memCopy
  | busIo
  | netIo
deriving DecidableEq, Repr

/-- The event order of one successful `sd_card_task` cycle
(main.rs:86-124): the whole `read_sd_card` bus conversation happens
before any lock is taken; then `SD_FILES` is locked, rewritten and
released (main.rs:95-101); then `SD_STATUS` is locked, rewritten and
released (main.rs:103-106). -/
def scannerOkCycleEvents : List Ev :=
  [Ev.busIo, Ev.lockFiles, Ev.memWrite, Ev.unlockFiles,
   Ev.lockStatus, Ev.memWrite, Ev.unlockStatus]

/-- The event order of one failed `sd_card_task` cycle
(main.rs:112-120): bus conversation, then the `SD_STATUS` critical
section only. -/
def scannerErrCycleEvents : List Ev :=
  [Ev.busIo, Ev.lockStatus, Ev.memWrite, Ev.unlockStatus]

/-- The event order of `handle_client` (main.rs:255-420): the request is
read from the socket before any lock; `SD_STATUS` then `SD_FILES` are
locked (main.rs:288-289); the count and status are copied
(main.rs:290-291); `drop(sd_status)` releases the status lock
(main.rs:292) before any response byte is written; the response —
including the iteration over `files` — is then written to the socket
(main.rs:295-412, abbreviated here to a run of socket writes), and the
`files` guard is only released when the enclosing block ends
(main.rs:416). -/
def handleClientEvents : List Ev :=
  [Ev.netIo, Ev.lockStatus, Ev.lockFiles, Ev.memCopy, Ev.memCopy, Ev.unlockStatus]
    ++ List.replicate 40 Ev.netIo ++ [Ev.unlockFiles]

/-- Whether some device or network I/O event occurs while the lock
delimited by the two given events is held, starting from the given
held/free state. -/
def ioWhileHeld (lockEv unlockEv : Ev) : List Ev → Bool → Bool
  | [], _ => false
  | e :: rest, held =>
    if e = lockEv then ioWhileHeld lockEv unlockEv rest true
    else if e = unlockEv then ioWhileHeld lockEv unlockEv rest false
    else if held = true ∧ (e = Ev.busIo ∨ e = Ev.netIo) then true
    else ioWhileHeld lockEv unlockEv rest held

/-- Counterexample to C6 as stated: `handle_client` performs network
I/O while holding the `SD_FILES` (Catalog) guard. -/
theorem reader_holds_catalog_lock_during_io :
    ioWhileHeld Ev.lockFiles Ev.unlockFiles handleClientEvents false = true := by
  decide

/-- Claim C6 (amended): the scanner's critical sections perform only
in-memory writes (its bus I/O all happens before any lock), and the
reader releases the Status guard before writing any response byte — but
the reader keeps the Catalog (`SD_FILES`) guard across its socket
writes, so reader-side contention is bounded by the page transmission,
not by the cost of copying at most 32 records. -/
theorem critical_section_io_discipline :
    ioWhileHeld Ev.lockFiles Ev.unlockFiles scannerOkCycleEvents false = false
    ∧ ioWhileHeld Ev.lockStatus Ev.unlockStatus scannerOkCycleEvents false = false
    ∧ ioWhileHeld Ev.lockFiles Ev.unlockFiles scannerErrCycleEvents false = false
    ∧ ioWhileHeld Ev.lockStatus Ev.unlockStatus scannerErrCycleEvents false = false
    ∧ ioWhileHeld Ev.lockStatus Ev.unlockStatus handleClientEvents false = false
    ∧ ioWhileHeld Ev.lockFiles Ev.unlockFiles handleClientEvents false = true := by
  refine ⟨?_, ?_, ?_, ?_, ?_, ?_⟩ <;> decide

end LT7689

namespace LT7689

/-- Scheduling events of `sd_card_task`: a timer suspension of a given
number of seconds, a scan attempt, and the publication of a success or
of an error status. -/
inductive TaskEv where
  | sleepSec (n : Nat)
  | scanAttempt
  | publishOkEv
  | publishErrEv (msg : String)
deriving DecidableEq, Repr

/-- The events of one iteration of the `loop` in `sd_card_task`
(main.rs:86-125): attempt the scan, publish the outcome of
`read_sd_card`, then `Timer::after(Duration::from_secs(15))` — the same
fixed sleep on both branches, after the `match`. -/
def cycleEvents (d : DriverBehavior) : List TaskEv :=
  TaskEv.scanAttempt ::
    ((match readSdCard d dev0 with
      | Except.ok _ => [TaskEv.publishOkEv]
      | Except.error (_, _, e) => [TaskEv.publishErrEv e])
      ++ [TaskEv.sleepSec 15])

/-- The events of `sd_card_task` after `n` complete cycles, driven by an
arbitrary sequence of driver behaviours: the one-time
`Timer::after(Duration::from_secs(3))` settle delay (main.rs:84),
then one `cycleEvents` block per iteration, unconditionally — no branch
of the loop body returns or breaks. -/
def taskEventsN (ds : Nat → DriverBehavior) : Nat → List TaskEv
  | 0 => [TaskEv.sleepSec 3]
  | n + 1 => taskEventsN ds n ++ cycleEvents (ds n)

/-- Recognizes timer-suspension events. -/
def isSleepEv : TaskEv → Bool
  | TaskEv.sleepSec _ => true
  | _ => false

/-- Every cycle's only sleep is the fixed 15-second inter-scan sleep,
whatever the scan outcome was. -/
theorem cycleEvents_sleeps (d : DriverBehavior) :
    (cycleEvents d).filter isSleepEv = [TaskEv.sleepSec 15] := by
  cases h : readSdCard d dev0 with
  | error val =>
    obtain ⟨a, b, e⟩ := val
    simp [cycleEvents, h, isSleepEv]
  | ok val =>
    simp [cycleEvents, h, isSleepEv]

/-- No cycle ever repeats the 3-second settle sleep. -/
theorem cycleEvents_no_settle (d : DriverBehavior) :
    (cycleEvents d).count (TaskEv.sleepSec 3) = 0 := by
  cases h : readSdCard d dev0 with
  | error val =>
    obtain ⟨a, b, e⟩ := val
    simp [cycleEvents, h, List.count_cons, List.count_append]
  | ok val =>
    simp [cycleEvents, h, List.count_cons, List.count_append]

/-- The task trace always starts with the settle sleep. -/
theorem taskEventsN_shape (ds : Nat → DriverBehavior) (n : Nat) :
    ∃ t, taskEventsN ds n = TaskEv.sleepSec 3 :: t := by
  induction n with
  | zero => exact ⟨[], rfl⟩
  | succ k ih =>
    obtain ⟨t, ht⟩ := ih
    exact ⟨t ++ cycleEvents (ds k), by simp [taskEventsN, ht]⟩

/-- Claim C9: `sd_card_task` sleeps once for the fixed 3-second settle
delay at startup, then loops forever: each iteration is one scan attempt
followed by the fixed 15-second inter-scan sleep; the interval is the
same whatever the outcome (the driver behaviours `ds` are arbitrary),
there is no backoff (each cycle's only sleep is 15 seconds), and no
failure terminates the loop (cycle `n + 1` always extends cycle `n`). -/
theorem scanner_loop_structure (ds : Nat → DriverBehavior) (n : Nat) :
    taskEventsN ds (n + 1) = taskEventsN ds n ++ cycleEvents (ds n)
    ∧ (taskEventsN ds n).head? = some (TaskEv.sleepSec 3)
    ∧ (taskEventsN ds n).count (TaskEv.sleepSec 3) = 1
    ∧ (cycleEvents (ds n)).filter isSleepEv = [TaskEv.sleepSec 15]
    ∧ (taskEventsN ds n).count TaskEv.scanAttempt = n := by
  refine ⟨rfl, ?_, ?_, cycleEvents_sleeps (ds n), ?_⟩
  · obtain ⟨t, ht⟩ := taskEventsN_shape ds n
    rw [ht]
    rfl
  · induction n with
    | zero => rfl
    | succ k ih =>
      simp [taskEventsN, List.count_append, ih, cycleEvents_no_settle]
  · induction n with
    | zero => rfl
    | succ k ih =>
      have hc : (cycleEvents (ds k)).count TaskEv.scanAttempt = 1 := by
        cases h : readSdCard (ds k) dev0 with
        | error val =>
          obtain ⟨a, b, e⟩ := val
          simp [cycleEvents, h, List.count_cons, List.count_append]
        | ok val =>
          simp [cycleEvents, h, List.count_cons, List.count_append]
      simp [taskEventsN, List.count_append, ih, hc]

/-- Claim C10: at process start, before any scan cycle, the Catalog is
empty and the Status is the initializing value; and the values are
mutated only by the scanner task — the reader's event trace contains no
write to the shared state, only copies. -/
theorem initial_state_and_writer_exclusivity :
    initialShared.sdFiles = []
    ∧ initialShared.sdStatus = "Initializing..."
    ∧ snapshot initialShared = ("Initializing...", [])
    ∧ handleClientEvents.count Ev.memWrite = 0
    ∧ 0 < scannerOkCycleEvents.count Ev.memWrite := by
  refine ⟨rfl, rfl, rfl, by decide, by decide⟩

end LT7689
